import Mathlib

/-!
Verification development for the customer-support chatbot repository
(`chatbot-multi-agents`).  The Python sources are embedded shallowly:
strings are `List Char`, dictionaries with a fixed key set are structures,
`None`-able values are `Option`, and exceptions are `Except`.  Each
definition mirrors one Python function and keeps its name.
-/

namespace Chatbot

/-- Python `str.lower()` (ASCII, which is all the repository's data uses). -/
def lowerStr (l : List Char) : List Char := l.map Char.toLower

/-- Python `str.upper()` (ASCII). -/
def upperStr (l : List Char) : List Char := l.map Char.toUpper

/-- Python's substring test `kw in s`: some tail of `s` starts with `kw`. -/
def hasSub (s kw : List Char) : Bool := s.tails.any (fun t => kw.isPrefixOf t)

/-- Characters Python's `str.split()` (no argument) treats as whitespace,
restricted to ASCII (all the data of this repository): space, tab, newline,
carriage return, vertical tab, form feed. -/
def isWs (c : Char) : Bool := (" \t\n\r\x0b\x0c".toList).contains c

/-! ## `src/utils/validators.py` — `InputValidator` -/

/-- Keyword list `refund_keywords` of `classify_query_intent`
(src/utils/validators.py lines 97-100). -/
def refund_keywords : List (List Char) :=
  ["refund", "return", "money back", "cancel order",
   "invoice", "inv", "receipt", "transaction"].map String.toList

/-- Keyword list `faq_keywords` of `classify_query_intent` (lines 103-107). -/
def faq_keywords : List (List Char) :=
  ["product", "specification", "specs", "dimension",
   "feature", "how to", "compatible", "warranty",
   "shipping", "payment", "policy"].map String.toList

/-- Keyword list `partnership_keywords` of `classify_query_intent`
(lines 110-113). -/
def partnership_keywords : List (List Char) :=
  ["partnership", "business", "wholesale", "bulk",
   "distributor", "reseller", "collaborate"].map String.toList

/-- Python generator sum from lines 116-118: one point per keyword of the
list occurring as a substring of the (already lower-cased) query. -/
def keywordScore (keywords : List (List Char)) (query_lower : List Char) : Nat :=
  (keywords.filter (fun kw => hasSub query_lower kw)).length

/-- Function InputValidator.classify_query_intent (src/utils/validators.py
lines 92-128): lower-case the query, score the three keyword lists and pick
a category by the if/elif chain of the code. -/
def classify_query_intent (query : List Char) : List Char :=
  let query_lower := lowerStr query
  let refund_score := keywordScore refund_keywords query_lower
  let faq_score := keywordScore faq_keywords query_lower
  let partnership_score := keywordScore partnership_keywords query_lower
  if refund_score > faq_score ∧ refund_score > partnership_score then
    "refund".toList
  else if partnership_score > faq_score ∧ partnership_score > refund_score then
    "partnership".toList
  else if faq_score > 0 then
    "faq".toList
  else
    "other".toList

/-- The four characters removed by sanitize_input (the character class of
the regex on line 69): less-than, greater-than, double quote, single quote. -/
def harmfulChars : List Char := "<>\x22\x27".toList

/-- Python `str.strip()`: drop leading and trailing whitespace. -/
def pyStrip (l : List Char) : List Char :=
  ((l.dropWhile (fun c => isWs c)).reverse.dropWhile (fun c => isWs c)).reverse

/-- Helper for `pySplit`: split at every whitespace character, keeping empty
pieces (the invariant is that the result is always nonempty). -/
def splitWsAux : List Char → List (List Char)
  | [] => [[]]
  | c :: rest =>
      match splitWsAux rest with
      | [] => [[c]]
      | w :: ws => if isWs c then [] :: w :: ws else (c :: w) :: ws

/-- Python `str.split()` with no argument: split on runs of whitespace and
drop the empty pieces. -/
def pySplit (l : List Char) : List (List Char) :=
  (splitWsAux l).filter (fun w => w ≠ [])

/-- Python single-space join of a word list (line 66). -/
def joinSp : List (List Char) → List Char
  | [] => []
  | [w] => w
  | w :: ws => w ++ ' ' :: joinSp ws

/-- Line 69: remove the four harmful characters (re.sub with empty replacement). -/
def removeHarmful (l : List Char) : List Char :=
  l.filter (fun c => ! harmfulChars.contains c)

/-- Function InputValidator.sanitize_input (src/utils/validators.py
lines 60-71): whitespace-collapse via strip/split/join, then remove the four
harmful characters.  The guard returning the empty string on empty input is
the identity on the empty list, which this composition already maps to
itself. -/
def sanitize_input (text : List Char) : List Char :=
  removeHarmful (joinSp (pySplit (pyStrip text)))

/-- A digit as Python's `\d` matches it on the repository's ASCII data. -/
def isDigitCh (c : Char) : Bool := c.isDigit

/-- Match attempt of the regex INV\d\x7b4\x7d at the head of the list: INV
followed by exactly four digits (the regex consumes exactly four). -/
def matchINVAt : List Char → Option (List Char)
  | 'I' :: 'N' :: 'V' :: d1 :: d2 :: d3 :: d4 :: _ =>
      if isDigitCh d1 ∧ isDigitCh d2 ∧ isDigitCh d3 ∧ isDigitCh d4 then
        some ('I' :: 'N' :: 'V' :: d1 :: d2 :: d3 :: [d4])
      else none
  | _ => none

/-- Python re.search for the invoice pattern: the leftmost match, if any. -/
def searchINV : List Char → Option (List Char)
  | [] => none
  | c :: rest =>
      match matchINVAt (c :: rest) with
      | some m => some m
      | none => searchINV rest

/-- Match attempt of the regex CUST\d\x7b3\x7d at the head of the list. -/
def matchCUSTAt : List Char → Option (List Char)
  | 'C' :: 'U' :: 'S' :: 'T' :: d1 :: d2 :: d3 :: _ =>
      if isDigitCh d1 ∧ isDigitCh d2 ∧ isDigitCh d3 then
        some ('C' :: 'U' :: 'S' :: 'T' :: d1 :: d2 :: [d3])
      else none
  | _ => none

/-- Python re.search for the customer pattern: the leftmost match, if any. -/
def searchCUST : List Char → Option (List Char)
  | [] => none
  | c :: rest =>
      match matchCUSTAt (c :: rest) with
      | some m => some m
      | none => searchCUST rest

/-- The dictionary returned by extract_transaction_info. -/
structure ExtractedInfo where
  invoice_no : Option (List Char)
  customer_id : Option (List Char)
deriving DecidableEq, Repr

/-- Function InputValidator.extract_transaction_info (src/utils/validators.py
lines 74-89): upper-case the text, then search each pattern. -/
def extract_transaction_info (text : List Char) : ExtractedInfo :=
  let text_upper := upperStr text
  { invoice_no := searchINV text_upper
    customer_id := searchCUST text_upper }

/-! ## Claim-side reformulations of the validator functions -/

/-- Number of occurrences of `kw` inside `s`: the number of positions of `s`
at which `kw` begins (used to state the occurrence-counting reading of the
scores; the code itself never counts occurrences). -/
def occCount (s kw : List Char) : Nat :=
  (s.tails.filter (fun t => kw.isPrefixOf t)).length

/-- The per-set score as claim C3 words it: the total number of occurrences
of the set's keywords in the lower-cased text, each occurrence adding 1. -/
def occScore (keywords : List (List Char)) (query_lower : List Char) : Nat :=
  (keywords.map (fun kw => occCount query_lower kw)).sum

/-- The set of distinct keywords of a list present as substrings of the
query (the presence/absence reading of the scores). -/
def presentKeywords (keywords : List (List Char)) (query_lower : List Char) :
    Finset (List Char) :=
  keywords.toFinset.filter (fun kw => hasSub query_lower kw = true)

/-- Well-formed invoice identifier: the literal INV followed by exactly four
digits. -/
def invShape : List Char → Bool
  | 'I' :: 'N' :: 'V' :: ds => decide (ds.length = 4) && ds.all isDigitCh
  | _ => false

/-- Well-formed customer identifier: the literal CUST followed by exactly
three digits. -/
def custShape : List Char → Bool
  | 'C' :: 'U' :: 'S' :: 'T' :: ds => decide (ds.length = 3) && ds.all isDigitCh
  | _ => false

/-! ## `src/agents/triage_agent.py` — `TriageAgent` -/

/-- List `valid_categories` of TriageAgent._validate_classification
(line 134). -/
def valid_categories : List (List Char) :=
  ["refund", "faq", "partnership", "other"].map String.toList

/-- The override list `refund_keywords` local to
TriageAgent._validate_classification (line 143); distinct from the
classifier's list. -/
def override_refund_keywords : List (List Char) :=
  ["refund", "return", "money back", "cancel", "invoice"].map String.toList

/-- Function TriageAgent._validate_classification
(src/agents/triage_agent.py lines 132-147): an invalid AI category falls
back to the rule category; a rule category of refund with lexical refund
evidence overrides a disagreeing AI category; otherwise the AI category is
returned. -/
def validate_classification (ai_category rule_category user_input : List Char) :
    List Char :=
  if ¬ valid_categories.contains ai_category then rule_category
  else if rule_category = "refund".toList ∧ ai_category ≠ "refund".toList ∧
      override_refund_keywords.any (fun kw => hasSub (lowerStr user_input) kw) then
    "refund".toList
  else ai_category

/-- The dictionary literal returned by the except branch of
TriageAgent.process (lines 101-109).  Its keys are category, response,
confidence, needs_routing and resolved; it sets no needs_followup key,
modelled as an `Option Bool` that is `none` here. -/
structure TriageDict where
  category : List Char
  response : List Char
  confidence_label : List Char
  needs_routing : Bool
  resolved : Bool
  needs_followup : Option Bool
deriving DecidableEq, Repr

/-- The fallback dictionary of the except branch of TriageAgent.process. -/
def triage_error_dict : TriageDict :=
  { category := "other".toList
    response := "I\x27m sorry, I\x27m having trouble processing your request. Please try again.".toList
    confidence_label := "low".toList
    needs_routing := false
    resolved := false
    needs_followup := none }

/-- A failure raised while a turn is processed, modelled by its message. -/
def PyErr : Type := List Char

/-- The try/except boundary of TriageAgent.process (lines 43-109): the body
either returns a dictionary or raises, and every raised error becomes the
fallback dictionary. -/
def triage_process_boundary (body : Except PyErr TriageDict) : TriageDict :=
  match body with
  | .ok r => r
  | .error _ => triage_error_dict

/-! ## `src/utils/response_schema.py` — `AgentResponse` -/

/-- Dataclass AgentResponse (src/utils/response_schema.py); `to_dict`
reproduces the fields one for one, so the structure stands for both.
`metadata` is a string-keyed dictionary, modelled as an association list
(`None` and the empty dictionary both become `[]`, as `to_dict` merges
them). -/
structure AgentResponse where
  response : List Char
  resolved : Bool
  category : List Char
  confidence : ℚ := mkRat 1 2
  needs_followup : Bool := false
  needs_more_info : Bool := false
  metadata : List (List Char × List Char) := []
deriving DecidableEq, Repr

/-! ## `src/agents/refund_agent.py` — `RefundAgent` -/

/-- The AgentResponse built in the except branch of RefundAgent.process
(lines 76-83). -/
def refund_error_response : AgentResponse :=
  { response := "I apologize, but I\x27m experiencing technical difficulties. Please contact our customer service team directly for refund assistance.".toList
    resolved := false
    category := "refund".toList
    needs_followup := true }

/-- The try/except boundary of RefundAgent.process (lines 48-83). -/
def refund_process_boundary (body : Except PyErr AgentResponse) : AgentResponse :=
  match body with
  | .ok r => r
  | .error _ => refund_error_response

/-- Field string for a missing invoice number
(RefundAgent._request_transaction_info, line 89). -/
def invoiceFieldMsg : List Char := "Invoice Number (format: INV####)".toList

/-- Field string for a missing customer id (line 91). -/
def customerFieldMsg : List Char := "Customer ID (format: CUST###)".toList

/-- The missing_fields list built by RefundAgent._request_transaction_info
(lines 87-91) from the current extraction. -/
def missing_fields_of (extracted_info : ExtractedInfo) : List (List Char) :=
  (if extracted_info.invoice_no = none then [invoiceFieldMsg] else []) ++
  (if extracted_info.customer_id = none then [customerFieldMsg] else [])

/-- What the identifier-collection phase of RefundAgent.process decides:
either emit the request for the listed missing fields
(_request_transaction_info, unresolved, needs_more_info true), or proceed to
the transaction lookup `db.verify_transaction(invoice_no, customer_id)`. -/
inductive RefundStep where
  | request_info (missing_fields : List (List Char)) : RefundStep
  | verify (invoice_no customer_id : List Char) : RefundStep
deriving DecidableEq, Repr

/-- The identifier-collection phase of RefundAgent.process (lines 53-68):
extract identifiers from the current message; when no invoice was extracted
and the context carries an extracted_info entry, take BOTH identifiers from
the context (overwriting the current extraction's customer id); then request
the fields still missing, or move on to the lookup.  `context_extracted` is
the context's extracted_info entry, `none` when absent or empty (falsy). -/
def refund_identifier_phase (user_input : List Char)
    (context_extracted : Option ExtractedInfo) : RefundStep :=
  let extracted_info := extract_transaction_info user_input
  let pair :=
    match extracted_info.invoice_no, context_extracted with
    | none, some ce => (ce.invoice_no, ce.customer_id)
    | iv, _ => (iv, extracted_info.customer_id)
  match pair with
  | (some i, some c) => .verify i c
  | _ => .request_info (missing_fields_of extracted_info)

/-! ## `src/agents/faq_agent.py` — `FAQAgent` -/

/-- List `resolution_indicators` of FAQAgent._assess_resolution_quality
(lines 197-201). -/
def resolution_indicators : List (List Char) :=
  ["specifications", "policy", "days", "warranty", "shipping",
   "payment", "return", "compatible", "dimensions", "price",
   "size", "weight", "material", "color", "model", "version"].map String.toList

/-- List `uncertainty_phrases` of FAQAgent._assess_resolution_quality
(lines 215-218). -/
def uncertainty_phrases : List (List Char) :=
  ["i don\x27t have", "not available", "contact support",
   "check our website", "i\x27m not sure", "unable to find"].map String.toList

/-- The indicator count of FAQAgent._assess_resolution_quality
(lines 207-208). -/
def indicatorCount (response_lower : List Char) : Nat :=
  (resolution_indicators.filter (fun ind => hasSub response_lower ind)).length

/-- Function FAQAgent._assess_resolution_quality
(src/agents/faq_agent.py lines 192-224).  Only the length of `faq_results`
is consulted (Python truthiness of the list), so the records are kept
opaque. -/
def assess_resolution_quality (user_input : List Char)
    (faq_results : List (List Char)) (ai_response : List Char) : Bool :=
  let response_lower := lowerStr ai_response
  let indicator_count := indicatorCount response_lower
  if ai_response.length > 100 ∧ indicator_count ≥ 2 then true
  else if uncertainty_phrases.any (fun p => hasSub response_lower p) then false
  else decide (faq_results.length > 0 ∧ indicator_count > 0)

/-! ## `src/agents/base_agent.py` — response cache -/

/-- Constant Config.MAX_CACHE_SIZE (src/config.py line 26). -/
def MAX_CACHE_SIZE : Nat := 100

/-- One cache slot: key (an md5 hex digest string) paired with the stored
pair (insertion time, response).  The list order is the Python dictionary's
insertion order. -/
abbrev CacheEntry : Type := List Char × ℚ × List Char

/-- Python `min(self.cache.keys(), key=lambda k: self.cache[k][0])` on a
nonempty dictionary: the first key, in iteration (= insertion) order, whose
stored time is minimal. -/
def oldest_key (first : CacheEntry) (rest : List CacheEntry) : List Char :=
  (rest.foldl (fun best e => if e.2.1 < best.2.1 then e else best) first).1

/-- Python `del cache[k]`: drop the slot stored under `k`. -/
def dict_del (k : List Char) (cache : List CacheEntry) : List CacheEntry :=
  cache.filter (fun e => e.1 ≠ k)

/-- Python `cache[k] = v`: overwrite in place when the key exists, append
otherwise. -/
def dict_set (cache : List CacheEntry) (k : List Char) (v : ℚ × List Char) :
    List CacheEntry :=
  if cache.any (fun e => e.1 = k) then
    cache.map (fun e => if e.1 = k then (k, v) else e)
  else cache ++ [(k, v)]

/-- Function BaseAgent._cache_response (src/agents/base_agent.py
lines 40-48): when the cache has reached MAX_CACHE_SIZE slots, delete the
slot whose stored insertion time is least, then store the new response under
its key at the current time. -/
def cache_response (cache : List CacheEntry) (cache_key : List Char)
    (now : ℚ) (response : List Char) : List CacheEntry :=
  let cache1 :=
    if cache.length ≥ MAX_CACHE_SIZE then
      match cache with
      | [] => cache
      | e :: rest => dict_del (oldest_key e rest) cache
    else cache
  dict_set cache1 cache_key (now, response)

/-! ## `src/app.py` — `CustomerSupportApp` routing and turn boundary -/

/-- The confidence field of a triage result: the dictionaries of this code
base carry either one of the labels high, medium, low or a number. -/
inductive PyConf where
  | label (s : List Char) : PyConf
  | num (q : ℚ) : PyConf
deriving DecidableEq, Repr

/-- Lines 420-422 of _determine_routing: a string confidence goes through
the map high to 0.8, medium to 0.6, low to 0.4, anything else 0.5; a number
stays. -/
def confToNum : PyConf → ℚ
  | .label s =>
      if s = "high".toList then mkRat 8 10
      else if s = "medium".toList then mkRat 6 10
      else if s = "low".toList then mkRat 4 10
      else mkRat 5 10
  | .num q => q

/-- List `refund_indicators` of _determine_routing (line 425). -/
def refund_indicators : List (List Char) :=
  ["refund", "return", "money back", "inv", "invoice"].map String.toList

/-- List `faq_indicators` of _determine_routing (line 426). -/
def faq_indicators : List (List Char) :=
  ["how", "what", "policy", "specification", "dimension"].map String.toList

/-- Line 428: count of refund-indicator words found in the lower-cased
text. -/
def refund_strength (user_input : List Char) : Nat :=
  (refund_indicators.filter (fun w => hasSub (lowerStr user_input) w)).length

/-- Line 429: count of faq-indicator words found in the lower-cased text. -/
def faq_strength (user_input : List Char) : Nat :=
  (faq_indicators.filter (fun w => hasSub (lowerStr user_input) w)).length

/-- The pair returned by _determine_routing. -/
structure RouteDecision where
  route_to : List Char
  confidence : ℚ
deriving DecidableEq, Repr

/-- Function CustomerSupportApp._determine_routing (src/app.py
lines 414-441): category and raw confidence are the triage result's fields
(after the dictionary defaults), `user_input` the raw text. -/
def determine_routing (category : List Char) (confidence0 : PyConf)
    (user_input : List Char) : RouteDecision :=
  let confidence := confToNum confidence0
  if category = "refund".toList ∧ confidence > mkRat 6 10 then
    { route_to := "refund".toList, confidence := confidence }
  else if category = "faq".toList ∧ confidence > mkRat 6 10 then
    { route_to := "faq".toList, confidence := confidence }
  else if refund_strength user_input > faq_strength user_input ∧
      refund_strength user_input > 0 then
    { route_to := "refund".toList, confidence := mkRat 7 10 }
  else if faq_strength user_input > refund_strength user_input ∧
      faq_strength user_input > 0 then
    { route_to := "faq".toList, confidence := mkRat 7 10 }
  else
    { route_to := "triage".toList, confidence := confidence }

/-- The route targets of the specification (RouteDecision of spec section 3;
the code writes them as the strings refund, faq and triage). -/
inductive RouteTarget where
  | refund : RouteTarget
  | faq : RouteTarget
  | triage_fallback : RouteTarget
deriving DecidableEq, Repr

/-- The route target a route_to string of the code stands for. -/
def targetOfString (s : List Char) : Option RouteTarget :=
  if s = "refund".toList then some .refund
  else if s = "faq".toList then some .faq
  else if s = "triage".toList then some .triage_fallback
  else none

/-- A route decision as the specification states it. -/
structure SpecRoute where
  target : RouteTarget
  confidence : ℚ
deriving DecidableEq, Repr

/-- The Router contract written from the words of spec section 4.6 (the
five-step first-match-wins decision order), to be compared with
determine_routing: step 1 refund at high confidence, step 2 faq at high
confidence, steps 3 and 4 the independent indicator-strength tie-break at
fixed confidence 0.7, step 5 the triage fallback at the original
confidence. -/
def route_spec (category : List Char) (confidence : ℚ) (text : List Char) :
    SpecRoute :=
  if category = "refund".toList ∧ confidence > mkRat 6 10 then
    { target := .refund, confidence := confidence }
  else if category = "faq".toList ∧ confidence > mkRat 6 10 then
    { target := .faq, confidence := confidence }
  else if refund_strength text > faq_strength text ∧ refund_strength text > 0 then
    { target := .refund, confidence := mkRat 7 10 }
  else if faq_strength text > refund_strength text ∧ faq_strength text > 0 then
    { target := .faq, confidence := mkRat 7 10 }
  else
    { target := .triage_fallback, confidence := confidence }

/-- Metadata of the message dictionary route_and_process returns in its
except branch (src/app.py lines 521-531); that branch sets no confidence
key, so only the three keys it does set are modelled. -/
structure TurnMetadata where
  category : List Char
  resolved : Bool
  needs_followup : Bool
deriving DecidableEq, Repr

/-- The message dictionary of the turn boundary. -/
structure TurnMessage where
  role : List Char
  content : List Char
  metadata : TurnMetadata
deriving DecidableEq, Repr

/-- The fallback message of the except branch of route_and_process
(lines 521-531). -/
def route_error_message : TurnMessage :=
  { role := "assistant".toList
    content := "I apologize, but I encountered an error processing your request. Please try again or contact our support team.".toList
    metadata := { category := "error".toList, resolved := false, needs_followup := true } }

/-- The try/except boundary of CustomerSupportApp.route_and_process
(lines 444-531). -/
def route_and_process_boundary (body : Except PyErr TurnMessage) : TurnMessage :=
  match body with
  | .ok r => r
  | .error _ => route_error_message


/-- A long FAQ answer that passes the length-and-indicators test although it
contains an uncertainty phrase (used to settle claim C6). -/
def c6_response : List Char :=
  "Our warranty policy covers returns for thirty days after purchase but i\x27m not sure about the exact shipping cost for your region.".toList

/-- A full cache of MAX_CACHE_SIZE slots with distinct keys and strictly
increasing insertion times (used to settle claim C9). -/
def witness_cache : List CacheEntry :=
  (List.range MAX_CACHE_SIZE).map (fun i => (Nat.toDigits 10 i, ((i : ℚ), ("resp".toList))))


/-! ## Supporting lemmas -/

/-- Unfolding equation of splitWsAux on a cons cell. -/
theorem splitWsAux_cons_eq (c : Char) (rest : List Char) :
    splitWsAux (c :: rest) =
      match splitWsAux rest with
      | [] => [[c]]
      | p :: ps => if isWs c then [] :: p :: ps else (c :: p) :: ps := rfl

/-- Unfolding equation of joinSp on a list of two or more words. -/
theorem joinSp_pair (w y : List Char) (ys : List (List Char)) :
    joinSp (w :: y :: ys) = w ++ ' ' :: joinSp (y :: ys) := rfl

/-- splitWsAux never returns the empty list of pieces. -/
theorem splitWsAux_ne_nil (l : List Char) : splitWsAux l ≠ [] := by
  cases l with
  | nil => simp [splitWsAux]
  | cons c rest =>
    rw [splitWsAux_cons_eq]
    split
    · simp
    · split_ifs <;> simp

/-- Destructed form of splitWsAux: there is always a head piece. -/
theorem splitWsAux_dest (l : List Char) :
    ∃ p ps, splitWsAux l = p :: ps := by
  cases h : splitWsAux l with
  | nil => exact absurd h (splitWsAux_ne_nil l)
  | cons p ps => exact ⟨p, ps, rfl⟩

/-- Prepending a whitespace-free word extends the head piece of the split. -/
theorem splitWsAux_append_word (w : List Char) :
    ∀ (r p : List Char) (ps : List (List Char)), splitWsAux r = p :: ps →
      (∀ c ∈ w, isWs c = false) → splitWsAux (w ++ r) = (w ++ p) :: ps := by
  induction w with
  | nil => intro r p ps hr _; simpa using hr
  | cons c w2 ih =>
    intro r p ps hr hw
    have hc : isWs c = false := hw c (by simp)
    have ih2 := ih r p ps hr (fun x hx => hw x (by simp [hx]))
    show splitWsAux (c :: (w2 ++ r)) = ((c :: w2) ++ p) :: ps
    rw [splitWsAux_cons_eq, ih2]
    simp [hc]

/-- Prepending a whitespace character opens a fresh empty piece. -/
theorem splitWsAux_ws_cons (c : Char) (r : List Char) (hc : isWs c = true) :
    splitWsAux (c :: r) = [] :: splitWsAux r := by
  obtain ⟨p, ps, hps⟩ := splitWsAux_dest r
  rw [splitWsAux_cons_eq, hps]
  simp [hc]

/-- Splitting a single-space join of nonempty whitespace-free words gives the
words back. -/
theorem pySplit_joinSp : ∀ ws : List (List Char),
    (∀ w ∈ ws, w ≠ [] ∧ ∀ c ∈ w, isWs c = false) → pySplit (joinSp ws) = ws := by
  intro ws
  induction ws with
  | nil => intro _; rfl
  | cons w ws2 ih =>
    intro h
    obtain ⟨hw, hwc⟩ := h w (by simp)
    cases ws2 with
    | nil =>
      have h1 : splitWsAux (w ++ []) = (w ++ []) :: [] :=
        splitWsAux_append_word w [] [] [] rfl hwc
      rw [List.append_nil] at h1
      show (splitWsAux w).filter (fun x => x ≠ []) = [w]
      rw [h1]
      simp [hw]
    | cons y ys =>
      have hys := ih (fun x hx => h x (by simp [hx]))
      obtain ⟨q, qs, hq⟩ := splitWsAux_dest (joinSp (y :: ys))
      have h2 : splitWsAux (' ' :: joinSp (y :: ys)) = [] :: q :: qs := by
        rw [splitWsAux_ws_cons _ _ (by decide), hq]
      have h3 : splitWsAux (w ++ ' ' :: joinSp (y :: ys)) = (w ++ []) :: q :: qs :=
        splitWsAux_append_word w _ [] (q :: qs) h2 hwc
      rw [List.append_nil] at h3
      show (splitWsAux (joinSp (w :: y :: ys))).filter (fun x => x ≠ []) = w :: y :: ys
      rw [joinSp_pair, h3]
      rw [List.filter_cons_of_pos (by simpa using hw)]
      have h4 : (q :: qs).filter (fun x => x ≠ []) = y :: ys := by
        rw [← hq]
        exact hys
      rw [h4]

/-- Every character of a piece of splitWsAux is a non-whitespace character of
the input. -/
theorem splitWsAux_mem (l : List Char) :
    ∀ w ∈ splitWsAux l, ∀ c ∈ w, isWs c = false ∧ c ∈ l := by
  induction l with
  | nil =>
    intro w hw c hc
    simp [splitWsAux] at hw
    subst hw
    simp at hc
  | cons a rest ih =>
    intro w hw c hc
    obtain ⟨p, ps, hps⟩ := splitWsAux_dest rest
    rw [splitWsAux_cons_eq, hps] at hw
    dsimp only at hw
    by_cases ha : isWs a = true
    · rw [if_pos ha] at hw
      rcases List.mem_cons.mp hw with rfl | hw2
      · simp at hc
      · have := ih w (hps ▸ hw2) c hc
        exact ⟨this.1, List.mem_cons_of_mem a this.2⟩
    · rw [if_neg (by simp [ha])] at hw
      rcases List.mem_cons.mp hw with rfl | hw2
      · rcases List.mem_cons.mp hc with rfl | hc2
        · exact ⟨by simpa using ha, by simp⟩
        · have hp : p ∈ splitWsAux rest := hps ▸ List.mem_cons_self p ps
          have := ih p hp c hc2
          exact ⟨this.1, List.mem_cons_of_mem a this.2⟩
      · have hmem : w ∈ splitWsAux rest := hps ▸ List.mem_cons_of_mem p hw2
        have := ih w hmem c hc
        exact ⟨this.1, List.mem_cons_of_mem a this.2⟩

/-- Every character of a single-space join is a space or a character of one
of the words. -/
theorem joinSp_mem : ∀ (ws : List (List Char)) (c : Char), c ∈ joinSp ws →
    c = ' ' ∨ ∃ w ∈ ws, c ∈ w := by
  intro ws
  induction ws with
  | nil => intro c hc; simp [joinSp] at hc
  | cons w ws2 ih =>
    intro c hc
    cases ws2 with
    | nil => exact Or.inr ⟨w, by simp, hc⟩
    | cons y ys =>
      rw [joinSp_pair] at hc
      rcases List.mem_append.mp hc with h1 | h1
      · exact Or.inr ⟨w, by simp, h1⟩
      · rcases List.mem_cons.mp h1 with rfl | h2
        · exact Or.inl rfl
        · rcases ih c h2 with h3 | ⟨v, hv, hcv⟩
          · exact Or.inl h3
          · exact Or.inr ⟨v, List.mem_cons_of_mem w hv, hcv⟩

/-- Stripping only removes characters. -/
theorem pyStrip_subset (l : List Char) : ∀ c ∈ pyStrip l, c ∈ l := by
  intro c hc
  unfold pyStrip at hc
  rw [List.mem_reverse] at hc
  have h1 := (List.dropWhile_sublist _).subset hc
  rw [List.mem_reverse] at h1
  exact (List.dropWhile_sublist _).subset h1

/-- Appending a whitespace character appends an empty piece to the split. -/
theorem splitWsAux_append_ws (c : Char) (hc : isWs c = true) :
    ∀ l : List Char, splitWsAux (l ++ [c]) = splitWsAux l ++ [[]] := by
  intro l
  induction l with
  | nil => simp [splitWsAux, hc]
  | cons d l2 ih =>
    show splitWsAux (d :: (l2 ++ [c])) = splitWsAux (d :: l2) ++ [[]]
    obtain ⟨p, ps, hps⟩ := splitWsAux_dest l2
    rw [splitWsAux_cons_eq, ih, splitWsAux_cons_eq, hps]
    by_cases hd : isWs d = true
    · simp [hd]
    · simp [hd]

/-- Leading whitespace does not change the Python split. -/
theorem pySplit_dropWhile (l : List Char) :
    pySplit (l.dropWhile (fun c => isWs c)) = pySplit l := by
  induction l with
  | nil => rfl
  | cons a rest ih =>
    by_cases ha : isWs a = true
    · rw [List.dropWhile_cons_of_pos (by simpa using ha)]
      rw [ih]
      show pySplit rest = (splitWsAux (a :: rest)).filter (fun x => x ≠ [])
      rw [splitWsAux_ws_cons a rest ha]
      rw [List.filter_cons_of_neg (by simp)]
      rfl
    · rw [List.dropWhile_cons_of_neg (by simpa using ha)]

/-- A trailing whitespace character does not change the Python split. -/
theorem pySplit_append_ws (c : Char) (hc : isWs c = true) (l : List Char) :
    pySplit (l ++ [c]) = pySplit l := by
  have hnil : ([[]] : List (List Char)).filter (fun x => x ≠ []) = [] := rfl
  show (splitWsAux (l ++ [c])).filter (fun x => x ≠ []) =
    (splitWsAux l).filter (fun x => x ≠ [])
  rw [splitWsAux_append_ws c hc l, List.filter_append, hnil, List.append_nil]

/-- Dropping whitespace on the far end (through a reversal) does not change
the Python split. -/
theorem pySplit_reverse_dropWhile : ∀ n : List Char,
    pySplit (n.dropWhile (fun c => isWs c)).reverse = pySplit n.reverse := by
  intro n
  induction n with
  | nil => rfl
  | cons a n2 ih =>
    by_cases ha : isWs a = true
    · rw [List.dropWhile_cons_of_pos (by simpa using ha)]
      rw [ih]
      rw [List.reverse_cons, pySplit_append_ws a ha]
    · rw [List.dropWhile_cons_of_neg (by simpa using ha)]

/-- Stripping does not change the Python split. -/
theorem pySplit_pyStrip (l : List Char) : pySplit (pyStrip l) = pySplit l := by
  unfold pyStrip
  rw [pySplit_reverse_dropWhile ((l.dropWhile (fun c => isWs c)).reverse)]
  rw [List.reverse_reverse]
  exact pySplit_dropWhile l

/-- Removing the harmful characters from a text that has none is the
identity. -/
theorem removeHarmful_eq_self (l : List Char)
    (h : ∀ c ∈ l, harmfulChars.contains c = false) : removeHarmful l = l := by
  unfold removeHarmful
  exact List.filter_eq_self.mpr (fun c hc => by rw [h c hc]; rfl)

/-- A Nodup keyword list's presence score equals the number of distinct
keywords present. -/
theorem keywordScore_eq_card (keywords : List (List Char)) (q : List Char)
    (h : keywords.Nodup) :
    keywordScore keywords q = (presentKeywords keywords q).card := by
  unfold keywordScore presentKeywords
  rw [← List.toFinset_filter, List.card_toFinset,
    List.Nodup.dedup (List.Nodup.filter _ h)]

/-- A prefix of the text is a substring of it. -/
theorem hasSub_of_isPrefixOf (l kw : List Char) (h : kw.isPrefixOf l = true) :
    hasSub l kw = true := by
  unfold hasSub
  rw [List.any_eq_true]
  exact ⟨l, by simp [List.mem_tails], h⟩

/-- A substring of the tail is a substring of the whole. -/
theorem hasSub_cons (c : Char) (l kw : List Char) (h : hasSub l kw = true) :
    hasSub (c :: l) kw = true := by
  unfold hasSub at h ⊢
  rw [List.any_eq_true] at h ⊢
  obtain ⟨t, ht, hp⟩ := h
  refine ⟨t, ?_, hp⟩
  simp only [List.mem_tails] at ht ⊢
  exact ht.trans (List.suffix_cons c l)

/-- A successful head match of the invoice pattern yields a well-formed
prefix. -/
theorem matchINVAt_sound (l m : List Char) (h : matchINVAt l = some m) :
    invShape m = true ∧ m.isPrefixOf l = true := by
  unfold matchINVAt at h
  split at h
  · rename_i d1 d2 d3 d4 rest
    split_ifs at h with hd
    injection h with h
    subst h
    refine ⟨?_, ?_⟩
    · simp [invShape, hd.1, hd.2.1, hd.2.2.1, hd.2.2.2]
    · exact List.isPrefixOf_iff_prefix.mpr ⟨rest, by simp⟩
  · exact absurd h (by simp)

/-- Every hit of the invoice search is a well-formed substring. -/
theorem searchINV_sound (l : List Char) : ∀ s, searchINV l = some s →
    invShape s = true ∧ hasSub l s = true := by
  induction l with
  | nil => intro s h; simp [searchINV] at h
  | cons c rest ih =>
    intro s h
    unfold searchINV at h
    cases hm : matchINVAt (c :: rest) with
    | some m =>
      rw [hm] at h
      injection h with h
      subst h
      obtain ⟨h1, h2⟩ := matchINVAt_sound _ _ hm
      exact ⟨h1, hasSub_of_isPrefixOf _ _ h2⟩
    | none =>
      rw [hm] at h
      obtain ⟨h1, h2⟩ := ih s h
      exact ⟨h1, hasSub_cons c _ _ h2⟩

/-- A successful head match of the customer pattern yields a well-formed
prefix. -/
theorem matchCUSTAt_sound (l m : List Char) (h : matchCUSTAt l = some m) :
    custShape m = true ∧ m.isPrefixOf l = true := by
  unfold matchCUSTAt at h
  split at h
  · rename_i d1 d2 d3 rest
    split_ifs at h with hd
    injection h with h
    subst h
    refine ⟨?_, ?_⟩
    · simp [custShape, hd.1, hd.2.1, hd.2.2]
    · exact List.isPrefixOf_iff_prefix.mpr ⟨rest, by simp⟩
  · exact absurd h (by simp)

/-- Every hit of the customer search is a well-formed substring. -/
theorem searchCUST_sound (l : List Char) : ∀ s, searchCUST l = some s →
    custShape s = true ∧ hasSub l s = true := by
  induction l with
  | nil => intro s h; simp [searchCUST] at h
  | cons c rest ih =>
    intro s h
    unfold searchCUST at h
    cases hm : matchCUSTAt (c :: rest) with
    | some m =>
      rw [hm] at h
      injection h with h
      subst h
      obtain ⟨h1, h2⟩ := matchCUSTAt_sound _ _ hm
      exact ⟨h1, hasSub_of_isPrefixOf _ _ h2⟩
    | none =>
      rw [hm] at h
      obtain ⟨h1, h2⟩ := ih s h
      exact ⟨h1, hasSub_cons c _ _ h2⟩

/-- A fold that keeps the entry with the least time is fixed at a start entry
whose time is below every listed time. -/
theorem foldl_min_fixed (rest : List CacheEntry) :
    ∀ b : CacheEntry, (∀ x ∈ rest, b.2.1 < x.2.1) →
      rest.foldl (fun best e => if e.2.1 < best.2.1 then e else best) b = b := by
  induction rest with
  | nil => intro b _; rfl
  | cons x xs ih =>
    intro b hb
    have hx : ¬ x.2.1 < b.2.1 := not_lt.mpr (le_of_lt (hb x (by simp)))
    simp only [List.foldl_cons, if_neg hx]
    exact ih b (fun y hy => hb y (by simp [hy]))

/-! ## The claims -/

/-- C1: for every input text whose rule-based classification is refund and
which contains at least one of the override keywords refund, return,
money back, cancel, invoice as a lower-cased substring, the reconciliation
step returns refund for every possible AI-proposed category string, valid or
invalid. -/
theorem refund_override_forces_refund (ai_category text : List Char)
    (hrule : classify_query_intent text = "refund".toList)
    (hkw : override_refund_keywords.any (fun kw => hasSub (lowerStr text) kw) = true) :
    validate_classification ai_category (classify_query_intent text) text = "refund".toList := by
  rw [hrule]
  by_cases hv : valid_categories.contains ai_category = true
  · by_cases ha : ai_category = "refund".toList
    · simp [validate_classification, hv, ha]
    · simp [validate_classification, hv, ha, hkw]
  · have hv2 : ai_category ∉ valid_categories := by simpa using hv
    simp [validate_classification, hv2]

/-- Witness for C1: the text "i want a refund" is rule-classified refund,
contains the override keyword refund, and the reconciliation of the
AI-proposed category faq returns refund. -/
theorem refund_override_forces_refund_witness :
    validate_classification ("faq".toList) (classify_query_intent ("i want a refund".toList))
      ("i want a refund".toList) = "refund".toList :=
  refund_override_forces_refund ("faq".toList) ("i want a refund".toList)
    (by decide) (by decide)

set_option maxRecDepth 8192 in
/-- Counterexample to C2: on the text "refund policy wholesale" the three
keyword-set scores are all 1 (tied), yet the classifier returns faq, not
other. -/
theorem classify_tie_counterexample :
    keywordScore refund_keywords (lowerStr ("refund policy wholesale".toList)) = 1 ∧
    keywordScore faq_keywords (lowerStr ("refund policy wholesale".toList)) = 1 ∧
    keywordScore partnership_keywords (lowerStr ("refund policy wholesale".toList)) = 1 ∧
    classify_query_intent ("refund policy wholesale".toList) = "faq".toList := by decide

/-- C2 as amended: the classifier returns refund or partnership exactly when
that score is strictly highest; when neither is strictly highest it returns
faq whenever the faq score is positive (even on ties, and even when faq is
not maximal), and other exactly when additionally the faq score is zero. -/
theorem classify_strict_max_and_tie (query : List Char) :
    (classify_query_intent query = "refund".toList ↔
      keywordScore refund_keywords (lowerStr query) > keywordScore faq_keywords (lowerStr query) ∧
      keywordScore refund_keywords (lowerStr query) > keywordScore partnership_keywords (lowerStr query)) ∧
    (classify_query_intent query = "partnership".toList ↔
      keywordScore partnership_keywords (lowerStr query) > keywordScore faq_keywords (lowerStr query) ∧
      keywordScore partnership_keywords (lowerStr query) > keywordScore refund_keywords (lowerStr query)) ∧
    (classify_query_intent query = "faq".toList ↔
      ¬(keywordScore refund_keywords (lowerStr query) > keywordScore faq_keywords (lowerStr query) ∧
        keywordScore refund_keywords (lowerStr query) > keywordScore partnership_keywords (lowerStr query)) ∧
      ¬(keywordScore partnership_keywords (lowerStr query) > keywordScore faq_keywords (lowerStr query) ∧
        keywordScore partnership_keywords (lowerStr query) > keywordScore refund_keywords (lowerStr query)) ∧
      keywordScore faq_keywords (lowerStr query) > 0) ∧
    (classify_query_intent query = "other".toList ↔
      ¬(keywordScore refund_keywords (lowerStr query) > keywordScore faq_keywords (lowerStr query) ∧
        keywordScore refund_keywords (lowerStr query) > keywordScore partnership_keywords (lowerStr query)) ∧
      ¬(keywordScore partnership_keywords (lowerStr query) > keywordScore faq_keywords (lowerStr query) ∧
        keywordScore partnership_keywords (lowerStr query) > keywordScore refund_keywords (lowerStr query)) ∧
      keywordScore faq_keywords (lowerStr query) = 0) := by
  unfold classify_query_intent
  dsimp only
  split_ifs with h1 h2 h3
  · exact ⟨iff_of_true rfl (by omega), iff_of_false (by decide) (by omega),
      iff_of_false (by decide) (by omega), iff_of_false (by decide) (by omega)⟩
  · exact ⟨iff_of_false (by decide) (by omega), iff_of_true rfl (by omega),
      iff_of_false (by decide) (by omega), iff_of_false (by decide) (by omega)⟩
  · exact ⟨iff_of_false (by decide) (by omega), iff_of_false (by decide) (by omega),
      iff_of_true rfl (by omega), iff_of_false (by decide) (by omega)⟩
  · exact ⟨iff_of_false (by decide) (by omega), iff_of_false (by decide) (by omega),
      iff_of_false (by decide) (by omega), iff_of_true rfl (by omega)⟩

set_option maxRecDepth 8192 in
/-- Counterexample to C3: on the text "refund refund" the keyword refund
occurs twice, so the occurrence-sum reading gives 2, but the computed score
is 1. -/
theorem score_not_occurrence_counterexample :
    keywordScore refund_keywords (lowerStr ("refund refund".toList)) = 1 ∧
    occScore refund_keywords (lowerStr ("refund refund".toList)) = 2 ∧
    keywordScore refund_keywords (lowerStr ("refund refund".toList)) ≠
      occScore refund_keywords (lowerStr ("refund refund".toList)) := by decide

/-- C3 as amended: each of the three scores equals the number of DISTINCT
keywords of its set present as a substring of the lower-cased text — one
point per present keyword regardless of how often it recurs, not one per
occurrence. -/
theorem keyword_scores_are_presence_counts (query : List Char) :
    keywordScore refund_keywords (lowerStr query) =
      (presentKeywords refund_keywords (lowerStr query)).card ∧
    keywordScore faq_keywords (lowerStr query) =
      (presentKeywords faq_keywords (lowerStr query)).card ∧
    keywordScore partnership_keywords (lowerStr query) =
      (presentKeywords partnership_keywords (lowerStr query)).card :=
  ⟨keywordScore_eq_card _ _ (by decide), keywordScore_eq_card _ _ (by decide),
    keywordScore_eq_card _ _ (by decide)⟩

/-- Counterexample to C4: the malformed identifier CUST12345 does not yield
an absent field — the extractor returns the truncated partial match
CUST123. -/
theorem extract_truncates_counterexample :
    (extract_transaction_info ("CUST12345".toList)).customer_id = some ("CUST123".toList) ∧
    custShape ("CUST12345".toList) = false := by decide

/-- C4 as amended: every extracted identifier is well-formed (INV plus
exactly four digits, CUST plus exactly three) and occurs in the upper-cased
text, and identifiers with too few digits yield an absent field; but the
search is not anchored, so an overlong digit run yields the truncated
leading match (INV12345 gives INV1234, CUST12345 gives CUST123) rather than
an absent field. -/
theorem extract_identifier_shapes :
    (∀ text : List Char,
      (∀ s, (extract_transaction_info text).invoice_no = some s →
        invShape s = true ∧ hasSub (upperStr text) s = true) ∧
      (∀ s, (extract_transaction_info text).customer_id = some s →
        custShape s = true ∧ hasSub (upperStr text) s = true)) ∧
    (extract_transaction_info ("INV12345".toList)).invoice_no = some ("INV1234".toList) ∧
    (extract_transaction_info ("CUST12345".toList)).customer_id = some ("CUST123".toList) ∧
    (extract_transaction_info ("INV100 and CUST12".toList)).invoice_no = none ∧
    (extract_transaction_info ("INV100 and CUST12".toList)).customer_id = none := by
  refine ⟨fun text => ⟨fun s h => searchINV_sound _ s h, fun s h => searchCUST_sound _ s h⟩,
    by decide, by decide, by decide, by decide⟩

/-- C5: the routing function implements the five-step first-match-wins
decision order of the specification (refund at confidence above 0.6, else
faq above 0.6, else the indicator-strength tie-break at fixed 0.7, else the
triage fallback at the original confidence); in particular, for category
other, confidence 0.5 and text "refund return" (refund strength 2, faq
strength 0) it routes to refund at confidence 0.7. -/
theorem routing_five_step_order :
    (∀ (category : List Char) (conf : PyConf) (text : List Char),
      targetOfString (determine_routing category conf text).route_to =
          some (route_spec category (confToNum conf) text).target ∧
        (determine_routing category conf text).confidence =
          (route_spec category (confToNum conf) text).confidence) ∧
      determine_routing ("other".toList) (.num (mkRat 5 10)) ("refund return".toList) =
        { route_to := "refund".toList, confidence := mkRat 7 10 } ∧
      refund_strength ("refund return".toList) = 2 ∧
      faq_strength ("refund return".toList) = 0 := by
  refine ⟨fun category conf text => ?_, by decide, by decide, by decide⟩
  unfold determine_routing route_spec
  dsimp only
  split_ifs <;> exact ⟨rfl, rfl⟩

set_option maxRecDepth 8192 in
/-- Counterexample to C6: a response longer than 100 characters with at
least two domain-term indicators is assessed resolved even though it
contains the uncertainty phrase "i am not sure" (with an apostrophe), so an
uncertainty phrase does not force resolved to be false. -/
theorem assess_uncertainty_counterexample :
    (uncertainty_phrases.any (fun p => hasSub (lowerStr c6_response) p)) = true ∧
    assess_resolution_quality [] [] c6_response = true := by decide

/-- C6 as amended: the length-and-indicator test is checked first and wins;
an uncertainty phrase forces resolved to be false only when the response
fails that first test. -/
theorem assess_uncertainty_subordinate_to_length (user_input : List Char)
    (faq_results : List (List Char)) (ai_response : List Char) :
    (ai_response.length > 100 ∧ indicatorCount (lowerStr ai_response) ≥ 2 →
      assess_resolution_quality user_input faq_results ai_response = true) ∧
    ((uncertainty_phrases.any (fun p => hasSub (lowerStr ai_response) p)) = true →
      ¬(ai_response.length > 100 ∧ indicatorCount (lowerStr ai_response) ≥ 2) →
      assess_resolution_quality user_input faq_results ai_response = false) := by
  unfold assess_resolution_quality
  dsimp only
  constructor
  · intro h
    rw [if_pos h]
  · intro hu hl
    rw [if_neg hl, if_pos hu]

/-- Counterexample to C7: the fallback dictionary of the except branch of
TriageAgent.process carries resolved false but sets no needs_followup key at
all, so the outcome of that handler boundary does not carry
needs_followup true. -/
theorem triage_error_branch_counterexample :
    (triage_process_boundary (Except.error ("division by zero".toList))).resolved = false ∧
    (triage_process_boundary (Except.error ("division by zero".toList))).needs_followup ≠ some true := by
  decide

/-- C7 as amended: every failure raised inside a turn is caught at its
handler boundary and converted into a fixed apologetic response, so no
exception escapes; the refund boundary and the turn boundary of
route_and_process return resolved false and needs_followup true, but the
triage boundary returns resolved false with needs_routing false and no
needs_followup key (downstream readers default it to false). -/
theorem turn_error_boundaries (e : PyErr) :
    (refund_process_boundary (Except.error e)).resolved = false ∧
    (refund_process_boundary (Except.error e)).needs_followup = true ∧
    (route_and_process_boundary (Except.error e)).metadata.resolved = false ∧
    (route_and_process_boundary (Except.error e)).metadata.needs_followup = true ∧
    (triage_process_boundary (Except.error e)).resolved = false ∧
    (triage_process_boundary (Except.error e)).needs_routing = false ∧
    (triage_process_boundary (Except.error e)).needs_followup = none :=
  ⟨rfl, rfl, rfl, rfl, rfl, rfl, rfl⟩

/-- Counterexample to C8: the current message carries the invoice INV1001
and no customer id, the carried-over context carries the customer id
CUST123, yet the handler asks for the customer id instead of proceeding to
the lookup — the context is consulted only when the current message has no
invoice. -/
theorem refund_context_merge_counterexample :
    (extract_transaction_info ("INV1001".toList)).invoice_no = some ("INV1001".toList) ∧
    (extract_transaction_info ("INV1001".toList)).customer_id = none ∧
    refund_identifier_phase ("INV1001".toList)
        (some { invoice_no := none, customer_id := some ("CUST123".toList) }) =
      RefundStep.request_info [customerFieldMsg] := by decide

/-- C8 as amended: when the current extraction has both identifiers the
handler proceeds to the lookup with them (the context is ignored); when the
current extraction has no invoice the context supplies BOTH identifiers
(discarding any customer id of the current message) and the lookup proceeds
only if the context has both; when the current extraction has an invoice but
no customer id the handler always asks for the customer id, even when the
context carries it. -/
theorem refund_identifier_phase_behaviour (user_input : List Char)
    (ce : ExtractedInfo) :
    (∀ i c, (extract_transaction_info user_input).invoice_no = some i →
      (extract_transaction_info user_input).customer_id = some c →
      ∀ ctx, refund_identifier_phase user_input ctx = RefundStep.verify i c) ∧
    ((extract_transaction_info user_input).invoice_no = none →
      refund_identifier_phase user_input (some ce) =
        (match ce.invoice_no, ce.customer_id with
         | some i, some c => RefundStep.verify i c
         | _, _ => RefundStep.request_info
             (missing_fields_of (extract_transaction_info user_input)))) ∧
    (∀ i, (extract_transaction_info user_input).invoice_no = some i →
      (extract_transaction_info user_input).customer_id = none →
      ∀ ctx, refund_identifier_phase user_input ctx =
        RefundStep.request_info [customerFieldMsg]) := by
  refine ⟨?_, ?_, ?_⟩
  · intro i c hi hc ctx
    unfold refund_identifier_phase
    dsimp only
    rw [hi, hc]
  · intro h
    unfold refund_identifier_phase
    dsimp only
    rw [h]
    rcases ce with ⟨ci, cc⟩
    cases ci <;> cases cc <;> rfl
  · intro i hi hc ctx
    unfold refund_identifier_phase
    dsimp only
    rw [hi, hc]
    simp [missing_fields_of, hi, hc]

/-- C9: inserting into a cache that already holds MAX_CACHE_SIZE entries
with distinct keys and strictly increasing insertion times evicts exactly
the earliest-inserted entry (the head of the insertion order) and keeps
every more recently inserted entry, appending the new one. -/
theorem cache_evicts_oldest (cache : List CacheEntry) (k : List Char)
    (now : ℚ) (r : List Char)
    (hlen : cache.length = MAX_CACHE_SIZE)
    (htimes : cache.Pairwise (fun a b => a.2.1 < b.2.1))
    (hkeys : (cache.map Prod.fst).Nodup)
    (hfresh : ∀ e ∈ cache, e.1 ≠ k) :
    cache_response cache k now r = cache.tail ++ [(k, now, r)] := by
  match cache, hlen, htimes, hkeys, hfresh with
  | [], hlen, _, _, _ => simp [MAX_CACHE_SIZE] at hlen
  | e :: rest, hlen, htimes, hkeys, hfresh =>
    have hordered := (List.pairwise_cons.mp htimes).1
    have hold : oldest_key e rest = e.1 := by
      unfold oldest_key
      rw [foldl_min_fixed rest e hordered]
    have hne : ∀ x ∈ rest, x.1 ≠ e.1 := by
      intro x hx heq
      have hmem : e.1 ∈ rest.map Prod.fst := heq ▸ List.mem_map_of_mem Prod.fst hx
      simp only [List.map_cons, List.nodup_cons] at hkeys
      exact hkeys.1 hmem
    have hdel : dict_del e.1 (e :: rest) = rest := by
      unfold dict_del
      rw [List.filter_cons_of_neg (by simp)]
      exact List.filter_eq_self.mpr (fun x hx => by simpa using hne x hx)
    have hany : rest.any (fun x => x.1 = k) = false := by
      simp only [List.any_eq_false]
      intro x hx
      simpa using hfresh x (List.mem_cons_of_mem e hx)
    unfold cache_response
    dsimp only
    rw [if_pos (le_of_eq hlen.symm), hold, hdel]
    unfold dict_set
    rw [if_neg (by simp [hany])]
    rfl

set_option maxRecDepth 8192 in
/-- Witness for C9: inserting a fresh key into the full hundred-slot cache
with times 0 to 99 evicts exactly the slot inserted at time 0 and appends
the new slot. -/
theorem cache_evicts_oldest_witness :
    cache_response witness_cache ("new".toList) ((MAX_CACHE_SIZE : ℚ)) ("fresh".toList) =
      witness_cache.tail ++ [(("new".toList), ((MAX_CACHE_SIZE : ℚ)), ("fresh".toList))] :=
  cache_evicts_oldest witness_cache ("new".toList) ((MAX_CACHE_SIZE : ℚ)) ("fresh".toList)
    (by decide) (by decide) (by decide) (by decide)

/-- Counterexample to C10: sanitize_input is not idempotent — on "a < b" one
application yields "a  b" (removing the harmful character creates a double
space), and a second application collapses it to "a b". -/
theorem sanitize_not_idempotent_counterexample :
    sanitize_input (sanitize_input ("a < b".toList)) ≠ sanitize_input ("a < b".toList) ∧
    sanitize_input ("a < b".toList) = "a  b".toList ∧
    sanitize_input (sanitize_input ("a < b".toList)) = "a b".toList := by decide

/-- C10 as amended: sanitize_input is idempotent on every input containing
none of the four removed characters; in general the character removal runs
after the whitespace collapsing and can create fresh leading, trailing or
consecutive whitespace that only a second application collapses. -/
theorem sanitize_idempotent_on_clean (t : List Char)
    (h : ∀ c ∈ t, harmfulChars.contains c = false) :
    sanitize_input (sanitize_input t) = sanitize_input t := by
  have hwords : ∀ w ∈ pySplit (pyStrip t), w ≠ [] ∧ ∀ c ∈ w, isWs c = false := by
    intro w hw
    have hw2 := List.of_mem_filter hw
    have hw3 : w ∈ splitWsAux (pyStrip t) := List.mem_of_mem_filter hw
    exact ⟨by simpa using hw2, fun c hc => (splitWsAux_mem _ w hw3 c hc).1⟩
  have hchars : ∀ c ∈ joinSp (pySplit (pyStrip t)), harmfulChars.contains c = false := by
    intro c hc
    rcases joinSp_mem _ c hc with rfl | ⟨w, hwmem, hcw⟩
    · decide
    · have hw3 : w ∈ splitWsAux (pyStrip t) := List.mem_of_mem_filter hwmem
      have hcl : c ∈ pyStrip t := (splitWsAux_mem _ w hw3 c hcw).2
      exact h c (pyStrip_subset t c hcl)
  have h1 : sanitize_input t = joinSp (pySplit (pyStrip t)) := by
    unfold sanitize_input
    exact removeHarmful_eq_self _ hchars
  rw [h1]
  unfold sanitize_input
  rw [pySplit_pyStrip, pySplit_joinSp _ hwords]
  exact removeHarmful_eq_self _ hchars

/-- Witness for C10: on an input with extra whitespace and none of the four
removed characters a second sanitization changes nothing. -/
theorem sanitize_idempotent_on_clean_witness :
    sanitize_input (sanitize_input ("  hello   world  ".toList)) =
      sanitize_input ("  hello   world  ".toList) :=
  sanitize_idempotent_on_clean ("  hello   world  ".toList) (by decide)

end Chatbot
